import Mathlib

/-!
Verification of the SearchShell repository (src/SearchShellGemini.py,
src/ollama_web_shell.py, src/ollama-web-wrapper.py).

The repository is a web-search + completion pipeline.  Its pure
computational core (string cleaning, region selection, context-block
formatting, error-to-string conversion) is embedded below as executable
Lean definitions.  External effects (HTTP fetches, the search provider,
the completion backend) are modelled as explicit outcome values passed
to the functions that consume them, exactly mirroring where the Python
code performs the corresponding calls and which exceptions it catches.
-/

/-! ## Python string primitives

The Python code uses `str.strip()`, `str.split('\n')`, `'\n'.join`,
slicing `[:2000]`, and string truthiness (`if s:` means `s != ""`).
These are embedded directly so their semantics are explicit.
-/

/-- The whitespace set of Python `str.strip()` (space, tab, newline,
carriage return, vertical tab, form feed). -/
def pyIsSpace (c : Char) : Bool :=
  c == ' ' || c == '\t' || c == '\n' || c == '\r' || c == '\x0b' || c == '\x0c'

/-- Python `str.strip()` on a character list: drop leading and trailing
whitespace. -/
def pyStripList (l : List Char) : List Char :=
  ((l.dropWhile pyIsSpace).reverse.dropWhile pyIsSpace).reverse

/-- Python `str.strip()`. -/
def pyStrip (s : String) : String :=
  ⟨pyStripList s.data⟩

/-- Python slicing `s[:n]` (a hard cut after `n` characters). -/
def pyTake (n : Nat) (s : String) : String :=
  ⟨s.data.take n⟩

/-- Python `sep.join(parts)`. -/
def pyJoin (sep : String) : List String → String
  | [] => ""
  | [s] => s
  | s :: rest => s ++ sep ++ pyJoin sep rest

/-- Python `text.split('\n')` on a character list: cut at every
newline, keeping empty pieces. -/
def splitNL : List Char → List (List Char)
  | [] => [[]]
  | c :: rest =>
      if c = '\n' then [] :: splitNL rest
      else
        match splitNL rest with
        | [] => [[c]]
        | l :: ls => (c :: l) :: ls

/-- Python `text.split('\n')`. -/
def pySplitNL (s : String) : List String :=
  (splitNL s.data).map String.mk

/-! ## HTML document model

`BeautifulSoup(response.text, 'html.parser')` produces a node tree; the
code only ever inspects tag names, the `class` attribute, and the text
runs, so the tree is embedded with exactly those observables.  The root
node stands for the parsed document itself (BeautifulSoup's synthetic
`[document]` node), which never carries one of the searched tag names.
-/

inductive Html where
  | text (s : String)
  | elem (tag : String) (classes : List String) (children : List Html)

/-- The tags removed by `for element in soup(['script', 'style', 'nav',
'header', 'footer', 'iframe', 'noscript']): element.decompose()`
(both backends use the same list). -/
def chromeTags : List String :=
  ["script", "style", "nav", "header", "footer", "iframe", "noscript"]

mutual

/-- Embedding of `element.decompose()` applied to every chrome-tagged element of the
tree: a matching element is removed together with its whole subtree;
non-matching elements keep their (scrubbed) children.  The root node is
the document itself and is never removed. -/
def scrubNode : Html → Html
  | Html.text s => Html.text s
  | Html.elem t c ch => Html.elem t c (scrubChildren ch)

def scrubChildren : List Html → List Html
  | [] => []
  | h :: rest => scrubKeep h ++ scrubChildren rest

/-- One child after scrubbing: a chrome-tagged element disappears,
anything else stays (with its own children scrubbed). -/
def scrubKeep : Html → List Html
  | Html.text s => [Html.text s]
  | Html.elem t c ch =>
      if chromeTags.contains t then [] else [Html.elem t c (scrubChildren ch)]

end

mutual

/-- Embedding of `soup.find(...)`: first element in document order (depth-first,
node before its children, children before later siblings) satisfying
the predicate on (tag, classes). -/
def findFirst (p : String → List String → Bool) : Html → Option Html
  | Html.text _ => none
  | Html.elem t c ch =>
      if p t c then some (Html.elem t c ch) else findFirstList p ch

def findFirstList (p : String → List String → Bool) : List Html → Option Html
  | [] => none
  | h :: rest =>
      match findFirst p h with
      | some r => some r
      | none => findFirstList p rest

end

/-- Matcher for `soup.find('main')`. -/
def isMainTag (t : String) (_ : List String) : Bool := t == "main"

/-- Matcher for `soup.find('article')`. -/
def isArticleTag (t : String) (_ : List String) : Bool := t == "article"

/-- Matcher for `soup.find('div', \x7b'class': ['content', 'main',
'article']\x7d)`: a div whose class list intersects the given set. -/
def isContentDiv (t : String) (classes : List String) : Bool :=
  t == "div" && classes.any (fun c => (["content", "main", "article"] : List String).contains c)

/-- Matcher for `soup.title` (first `<title>` element). -/
def isTitleTag (t : String) (_ : List String) : Bool := t == "title"

mutual

/-- All text runs of a node, in document order (BeautifulSoup
`.strings`). -/
def stringsOf : Html → List String
  | Html.text s => [s]
  | Html.elem _ _ ch => stringsOfList ch

def stringsOfList : List Html → List String
  | [] => []
  | h :: rest => stringsOf h ++ stringsOfList rest

end

/-- Embedding of `node.get_text(separator='\n', strip=True)`: strip each text run,
drop the runs that become empty, join the rest with newline. -/
def getText (h : Html) : String :=
  pyJoin "\n" (((stringsOf h).map pyStrip).filter (fun s => !s.isEmpty))

/-- Embedding of `tag.string`: the node's text if it has exactly one child and that
child chain ends in a single text run, else None (BeautifulSoup
`.string` semantics). -/
def dotString : Html → Option String
  | Html.text s => some s
  | Html.elem _ _ [c] => dotString c
  | Html.elem _ _ _ => none

/-! ## Fetch outcomes

`requests.get(url, headers=..., timeout=...)` followed by
`response.raise_for_status()` and parsing.  A transport error, a
timeout, a non-2xx status (raised by `raise_for_status`), or any parse
failure all land in the enclosing `except` handler; `ok` carries the
parsed document of a successful fetch. -/
inductive Fetch where
  | ok (doc : Html)
  | error (msg : String)

/-- The line-cleaning step shared by both backends:
`lines = [line.strip() for line in text.split('\n') if line.strip()]`
then `'\n'.join(lines)`.  Note each kept line is itself stripped. -/
def cleanLines (text : String) : String :=
  pyJoin "\n" (((pySplitNL text).filter (fun l => !(pyStrip l).isEmpty)).map pyStrip)

/-- Embedding of `main_content = soup.find('main') or soup.find('article') or
soup.find('div', \x7b'class': [...]\x7d)` — a found tag is modelled as
truthy. -/
def selectContent (soup : Html) : Option Html :=
  (findFirst isMainTag soup) <|> (findFirst isArticleTag soup) <|> (findFirst isContentDiv soup)

/-- The text taken from the chosen region (`main_content.get_text(...)`
if one was found, else `soup.get_text(...)`), after cleaning. -/
def rawCleanedText (doc : Html) : String :=
  cleanLines (match selectContent (scrubNode doc) with
    | some el => getText el
    | none => getText (scrubNode doc))

/-- Embedding of `GeminiWebWrapper.extract_content` (SearchShellGemini.py:160-186) =
`OllamaWebWrapper.extract_content` (ollama_web_shell.py:143-169): on a
successful fetch, scrub chrome tags, select the content region, get
and clean the text, and cut it to the first 2000 characters; on any
failure, print a diagnostic and return the empty string. -/
def extract_content : Fetch → String
  | Fetch.error _ => ""
  | Fetch.ok doc => pyTake 2000 (rawCleanedText doc)

/-- Embedding of `GeminiWebWrapper._get_page_title` (SearchShellGemini.py:145-158):
`title = soup.title.string if soup.title else url; return title.strip()`
with any exception (including the fetch failing, or `.string` being
None so that `.strip()` raises AttributeError) answered by `return
url`. -/
def get_page_title (url : String) : Fetch → String
  | Fetch.error _ => url
  | Fetch.ok doc =>
      match findFirst isTitleTag doc with
      | none => pyStrip url
      | some ttl =>
          match dotString ttl with
          | some s => pyStrip s
          | none => url

/-! ## Search results and context assembly -/

/-- One search-result record.  The Ollama backend reads the three
fields with `result.get('href', '')`, `result.get('title', '')`,
`result.get('body', '')`, so a missing key is identified with the
empty string. -/
structure SearchResult where
  href : String
  title : String
  body : String

/-- Outcome of `list(self.ddgs.text(query, max_results=num_results))`:
either the returned record list or an exception raised by the
provider. -/
inductive SearchOutcome where
  | ok (results : List SearchResult)
  | error (msg : String)

/-- Embedding of `OllamaWebWrapper.search_web` (ollama_web_shell.py:134-141): the
provider's list on success; on any exception, print the error and
return `[]`. -/
def search_web : SearchOutcome → List SearchResult
  | SearchOutcome.ok rs => rs
  | SearchOutcome.error _ => []

/-- Outcome of `search(query, num_results=num_results)` (googlesearch):
either the yielded URL list or an exception raised during iteration
(in which case the partially built result list is discarded). -/
inductive GoogleOutcome where
  | ok (urls : List String)
  | error (msg : String)

/-- Embedding of `GeminiWebWrapper.search_web` (SearchShellGemini.py:130-143): build
one record per returned URL, resolving the title with
`_get_page_title` (whose 5-second fetch is the `titleFetch` oracle)
and an empty `body`; on any exception, print the error and return
`[]`. -/
def search_web_gemini (o : GoogleOutcome) (titleFetch : String → Fetch) : List SearchResult
  :=
  match o with
  | GoogleOutcome.ok urls =>
      urls.map (fun u => ⟨u, get_page_title u (titleFetch u), ""⟩)
  | GoogleOutcome.error _ => []

/-- The string `'=' * 50`, the separator material of every context block. -/
def sep50 : String := String.mk (List.replicate 50 '=')

/-- One context entry of `OllamaWebWrapper.generate_context`
(ollama_web_shell.py:184-200).  Python tests `if content:` (truthy =
non-empty): a non-empty extraction yields the
Source/URL/Summary/Content form, an empty one the Source/URL/Summary
form; both end with the separator line. -/
def context_entry_ollama (r : SearchResult) (content : String) : String :=
  if content = "" then
    "Source: " ++ r.title ++ "\nURL: " ++ r.href ++ "\nSummary: " ++ r.body ++ "\n"
      ++ sep50 ++ "\n"
  else
    "Source: " ++ r.title ++ "\nURL: " ++ r.href ++ "\nSummary: " ++ r.body ++ "\n\n"
      ++ "Content:\n" ++ content ++ "\n" ++ sep50 ++ "\n"

/-- One context entry of `GeminiWebWrapper.generate_context`
(SearchShellGemini.py:200-214).  No Summary line exists in either
branch. -/
def context_entry_gemini (title url content : String) : String :=
  if content = "" then
    "Source: " ++ title ++ "\nURL: " ++ url ++ "\n" ++ sep50 ++ "\n"
  else
    "Source: " ++ title ++ "\nURL: " ++ url ++ "\n\n"
      ++ "Content:\n" ++ content ++ "\n" ++ sep50 ++ "\n"

/-- The entry list built by the loop of
`OllamaWebWrapper.generate_context` (ollama_web_shell.py:176-202):
only results with a truthy (non-empty) `href` are fetched
(`if url:`) and contribute an entry; `fetchOf` is the per-URL fetch
oracle consumed by `extract_content`. -/
def generate_context_entries (fetchOf : String → Fetch) : List SearchResult → List String
  | [] => []
  | r :: rest =>
      if r.href = "" then generate_context_entries fetchOf rest
      else context_entry_ollama r (extract_content (fetchOf r.href))
             :: generate_context_entries fetchOf rest

/-- Embedding of `OllamaWebWrapper.generate_context` (ollama_web_shell.py:171-204):
search, build the entries, `'\n'.join` them. -/
def generate_context (o : SearchOutcome) (fetchOf : String → Fetch) : String :=
  pyJoin "\n" (generate_context_entries fetchOf (search_web o))

/-- The entry list built by the loop of
`GeminiWebWrapper.generate_context` (SearchShellGemini.py:193-216):
every result contributes an entry — there is no URL guard in this
variant. -/
def generate_context_entries_gemini (fetchOf : String → Fetch)
    (results : List SearchResult) : List String :=
  results.map (fun r => context_entry_gemini r.title r.href (extract_content (fetchOf r.href)))

/-- Embedding of `GeminiWebWrapper.generate_context` (SearchShellGemini.py:188-218). -/
def generate_context_gemini (o : GoogleOutcome) (titleFetch fetchOf : String → Fetch) : String :=
  pyJoin "\n" (generate_context_entries_gemini fetchOf (search_web_gemini o titleFetch))

/-! ## Completion backends -/

/-- A decoded JSON-like Python value, as far as the code inspects it. -/
inductive Json where
  | str (s : String)
  | num (n : Int)
  | boolean (b : Bool)
  | null
  | arr (elems : List Json)
  | obj (fields : List (String × Json))

/-- The Python exceptions that subscripting can raise. -/
inductive PyErr where
  | keyError (key : String)
  | indexError (msg : String)
  | typeError (msg : String)

/-- A single quote character, used by `str(KeyError(k))`. -/
def quoteChar : String := String.mk ['\x27']

/-- Python `str(e)` for the modelled exceptions
(`str(KeyError('k'))` is the key wrapped in single quotes). -/
def pyErrStr : PyErr → String
  | PyErr.keyError k => quoteChar ++ k ++ quoteChar
  | PyErr.indexError m => m
  | PyErr.typeError m => m

/-- Python subscripting `value[key]` with a string key: a present
dict key yields its value, an absent one raises KeyError, and a
non-dict value raises TypeError. -/
def jGet : Json → String → Except PyErr Json
  | Json.obj fields, k =>
      match fields.lookup k with
      | some v => Except.ok v
      | none => Except.error (PyErr.keyError k)
  | _, _ => Except.error (PyErr.typeError "value is not subscriptable by a string key")

/-- Python subscripting `value[i]` with a non-negative integer index:
lists and strings index positionally (IndexError past the end), other
values raise TypeError. -/
def jIdx : Json → Nat → Except PyErr Json
  | Json.arr elems, i =>
      match elems.get? i with
      | some v => Except.ok v
      | none => Except.error (PyErr.indexError "list index out of range")
  | Json.str s, i =>
      match s.data.get? i with
      | some c => Except.ok (Json.str (String.mk [c]))
      | none => Except.error (PyErr.indexError "string index out of range")
  | _, _ => Except.error (PyErr.typeError "value is not subscriptable by an integer")

/-- Rendering of the returned value as the answer string.  The code
returns the extracted field directly; it is a string in every
well-formed response, and the claims never constrain the other cases,
which are rendered by placeholders here. -/
def jsonToStr : Json → String
  | Json.str s => s
  | Json.num n => toString n
  | Json.boolean b => if b then "True" else "False"
  | Json.null => "None"
  | Json.arr _ => "<list>"
  | Json.obj _ => "<dict>"

/-- Embedding of `response_data['candidates'][0]['content']['parts'][0]['text']`
(SearchShellGemini.py:266), step by step. -/
def geminiExtract (body : Json) : Except PyErr Json := do
  let c ← jGet body "candidates"
  let c0 ← jIdx c 0
  let ct ← jGet c0 "content"
  let ps ← jGet ct "parts"
  let p0 ← jIdx ps 0
  jGet p0 "text"

/-- Embedding of `response['message']['content']` (ollama_web_shell.py:225). -/
def ollamaExtract (resp : Json) : Except PyErr Json := do
  let m ← jGet resp "message"
  jGet m "content"

/-- The advisory returned when the context is empty or whitespace-only
(identical string in both backends). -/
def no_context_response : String :=
  "No context was found from web searches. The model will provide a general response without current information."

/-- Outcome of `requests.post(...)` + `raise_for_status()` +
`response.json()`: `ok` carries the decoded body of a 2xx response
with a parseable JSON body; `requestError` covers every
`requests.exceptions.RequestException` (transport error, timeout,
non-2xx status raised by `raise_for_status`, undecodable JSON body). -/
inductive HttpOutcome where
  | ok (body : Json)
  | requestError (msg : String)

/-- Embedding of `GeminiWebWrapper.query_gemini` (SearchShellGemini.py:220-273).
The second component counts completion-backend invocations (the
`requests.post` call).  An empty-after-strip context short-circuits
before the request.  A RequestException is answered with the API error
string; a missing key or bad index during extraction (the inner
`except (KeyError, IndexError)`) with the parse error string; a
TypeError from subscripting a wrongly-typed field reaches the outer
handler and is answered with the unexpected error string. -/
def query_gemini (prompt context : String) (o : HttpOutcome) : String × Nat :=
  if pyStrip context = "" then (no_context_response, 0)
  else
    match o with
    | HttpOutcome.requestError e => ("Error querying Gemini API: " ++ e, 1)
    | HttpOutcome.ok body =>
        match geminiExtract body with
        | Except.ok v => (jsonToStr v, 1)
        | Except.error (PyErr.keyError k) =>
            ("Error parsing Gemini response: " ++ pyErrStr (PyErr.keyError k), 1)
        | Except.error (PyErr.indexError m) =>
            ("Error parsing Gemini response: " ++ m, 1)
        | Except.error (PyErr.typeError m) =>
            ("Unexpected error: " ++ m, 1)

/-- Outcome of `ollama.chat(...)`: the response value, or an exception
raised by the call. -/
inductive ChatOutcome where
  | ok (response : Json)
  | exn (msg : String)

/-- Embedding of `OllamaWebWrapper.query_ollama` (ollama_web_shell.py:206-227).  One
catch-all handler turns every exception — from the chat call or from
the field extraction — into the single error-string format. -/
def query_ollama (prompt context : String) (o : ChatOutcome) : String × Nat :=
  if pyStrip context = "" then (no_context_response, 0)
  else
    match o with
    | ChatOutcome.exn e => ("Error querying Ollama: " ++ e, 1)
    | ChatOutcome.ok resp =>
        match ollamaExtract resp with
        | Except.ok v => (jsonToStr v, 1)
        | Except.error err => ("Error querying Ollama: " ++ pyErrStr err, 1)

/-! ## General lemmas about the string primitives -/

/-- A string whose characters are all Python whitespace strips to the
empty string. -/
theorem pyStrip_eq_empty_of_all_space {s : String}
    (h : ∀ c ∈ s.data, pyIsSpace c = true) : pyStrip s = "" := by
  apply String.ext
  show pyStripList s.data = []
  unfold pyStripList
  rw [List.reverse_eq_nil_iff, List.dropWhile_eq_nil_iff]
  intro x hx
  rw [List.mem_reverse] at hx
  have hx' : x ∈ s.data := by
    have hsplit := List.takeWhile_append_dropWhile (p := pyIsSpace) (l := s.data)
    rw [← hsplit]
    exact List.mem_append.mpr (Or.inr hx)
  exact h x hx'

/-- A string containing a non-whitespace character does not strip to
the empty string. -/
theorem pyStrip_ne_empty {s : String} {c : Char}
    (hc : c ∈ s.data) (hw : pyIsSpace c = false) : pyStrip s ≠ "" := by
  intro h
  have hd : pyStripList s.data = [] := congrArg String.data h
  unfold pyStripList at hd
  rw [List.reverse_eq_nil_iff, List.dropWhile_eq_nil_iff] at hd
  have h1 : ∀ x ∈ s.data.dropWhile pyIsSpace, pyIsSpace x = true := by
    intro x hx
    exact hd x (List.mem_reverse.mpr hx)
  have h2 : c ∈ s.data.dropWhile pyIsSpace := by
    have := List.takeWhile_append_dropWhile (p := pyIsSpace) (l := s.data)
    rw [← this] at hc
    rcases List.mem_append.mp hc with h | h
    · exact absurd (List.mem_takeWhile_imp h) (by simp [hw])
    · exact h
  exact absurd (h1 c h2) (by simp [hw])

/-- Membership in an element of a join is membership in the join. -/
theorem mem_pyJoin {sep : String} {es : List String} {e : String} {c : Char}
    (he : e ∈ es) (hc : c ∈ e.data) : c ∈ (pyJoin sep es).data := by
  induction es with
  | nil => cases he
  | cons x rest ih =>
      rcases List.mem_cons.mp he with heq | htail
      · subst heq
        rcases rest with _ | ⟨y, rest'⟩
        · exact hc
        · show c ∈ (e ++ sep ++ pyJoin sep (y :: rest')).data
          rw [String.data_append, String.data_append]
          exact List.mem_append.mpr (Or.inl (List.mem_append.mpr (Or.inl hc)))
      · rcases rest with _ | ⟨y, rest'⟩
        · cases htail
        · show c ∈ (x ++ sep ++ pyJoin sep (y :: rest')).data
          rw [String.data_append]
          exact List.mem_append.mpr (Or.inr (ih htail))

/-! ## Claim theorems -/

/-- C1: for every input, `extract_content` returns a string of length
at most 2000 characters, and on a successful fetch that string is a
hard character cut (a prefix) of the cleaned text. -/
theorem c1_extract_content_bounded :
    ∀ f : Fetch, (extract_content f).length ≤ 2000 ∧
      ∀ doc : Html, ∃ rest : List Char,
        (rawCleanedText doc).data = (extract_content (Fetch.ok doc)).data ++ rest := by
  intro f
  constructor
  · cases f with
    | error m => simp [extract_content]
    | ok doc =>
        show ((rawCleanedText doc).data.take 2000).length ≤ 2000
        rw [List.length_take]
        exact min_le_left _ _
  · intro doc
    exact ⟨(rawCleanedText doc).data.drop 2000,
      (List.take_append_drop 2000 (rawCleanedText doc).data).symm⟩

/-- C2: `extract_content` never raises to its caller — every fetch,
status, or parse failure is mapped to the empty string (it is a total
function of the fetch outcome, and the failure branch returns `""`). -/
theorem c2_extract_content_failure_empty :
    ∀ msg : String, extract_content (Fetch.error msg) = "" :=
  fun _ => rfl

/-- C7: on provider failure both `search_web` variants return the
empty result list, and both `generate_context` variants then assemble
the empty context document. -/
theorem c7_search_failure_degrades :
    ∀ (m : String) (tf fo : String → Fetch),
      search_web (SearchOutcome.error m) = [] ∧
      generate_context (SearchOutcome.error m) fo = "" ∧
      search_web_gemini (GoogleOutcome.error m) tf = [] ∧
      generate_context_gemini (GoogleOutcome.error m) tf fo = "" :=
  fun _ _ _ => ⟨rfl, rfl, rfl, rfl⟩

/-- C3: when the context is empty or whitespace-only, both
`query_gemini` and `query_ollama` return the fixed no-context advisory
string and perform no completion-backend call (call count 0). -/
theorem c3_no_context_short_circuit :
    ∀ (prompt context : String) (og : HttpOutcome) (oc : ChatOutcome),
      (∀ c ∈ context.data, pyIsSpace c = true) →
      query_gemini prompt context og = (no_context_response, 0) ∧
      query_ollama prompt context oc = (no_context_response, 0) := by
  intro p ctx og oc h
  have hs : pyStrip ctx = "" := pyStrip_eq_empty_of_all_space h
  constructor
  · unfold query_gemini
    rw [if_pos hs]
  · unfold query_ollama
    rw [if_pos hs]

/-- Witness for C3 at the whitespace-only context `" "`. -/
theorem c3_no_context_short_circuit_witness :
    query_gemini "Q" " " (HttpOutcome.requestError "x") = (no_context_response, 0) ∧
    query_ollama "Q" " " (ChatOutcome.exn "x") = (no_context_response, 0) :=
  c3_no_context_short_circuit "Q" " " (HttpOutcome.requestError "x")
    (ChatOutcome.exn "x") (by decide)

/-- C8: with a non-empty context, both query operations convert every
modelled failure into a returned string: a transport/HTTP failure
yields the API error format embedding the failure description, and a
response lacking the expected fields yields the parse-error format. -/
theorem c8_query_failures_as_strings :
    ∀ (prompt context : String), pyStrip context ≠ "" →
      (∀ e, query_gemini prompt context (HttpOutcome.requestError e)
          = ("Error querying Gemini API: " ++ e, 1)) ∧
      (∀ body k, geminiExtract body = Except.error (PyErr.keyError k) →
        query_gemini prompt context (HttpOutcome.ok body)
          = ("Error parsing Gemini response: " ++ pyErrStr (PyErr.keyError k), 1)) ∧
      (∀ body m, geminiExtract body = Except.error (PyErr.indexError m) →
        query_gemini prompt context (HttpOutcome.ok body)
          = ("Error parsing Gemini response: " ++ m, 1)) ∧
      (∀ e, query_ollama prompt context (ChatOutcome.exn e)
          = ("Error querying Ollama: " ++ e, 1)) ∧
      (∀ resp err, ollamaExtract resp = Except.error err →
        query_ollama prompt context (ChatOutcome.ok resp)
          = ("Error querying Ollama: " ++ pyErrStr err, 1)) := by
  intro p ctx h
  refine ⟨fun e => ?_, fun body k hk => ?_, fun body m hm => ?_,
    fun e => ?_, fun resp err he => ?_⟩
  · simp [query_gemini, h]
  · simp [query_gemini, h, hk]
  · simp [query_gemini, h, hm]
  · simp [query_ollama, h]
  · simp [query_ollama, h, he]

/-- Witness for C8: concrete transport failures and field-lacking
responses for both backends. -/
theorem c8_query_failures_as_strings_witness :
    query_gemini "Q" "ctx" (HttpOutcome.requestError "boom")
      = ("Error querying Gemini API: boom", 1) ∧
    query_gemini "Q" "ctx" (HttpOutcome.ok (Json.obj []))
      = ("Error parsing Gemini response: " ++ pyErrStr (PyErr.keyError "candidates"), 1) ∧
    query_gemini "Q" "ctx" (HttpOutcome.ok (Json.obj [("candidates", Json.arr [])]))
      = ("Error parsing Gemini response: " ++ "list index out of range", 1) ∧
    query_ollama "Q" "ctx" (ChatOutcome.exn "down")
      = ("Error querying Ollama: " ++ "down", 1) ∧
    query_ollama "Q" "ctx" (ChatOutcome.ok (Json.obj []))
      = ("Error querying Ollama: " ++ pyErrStr (PyErr.keyError "message"), 1) := by
  have h := c8_query_failures_as_strings "Q" "ctx" (by decide)
  exact ⟨h.1 "boom", h.2.1 (Json.obj []) "candidates" rfl,
    h.2.2.1 (Json.obj [("candidates", Json.arr [])]) "list index out of range" rfl,
    h.2.2.2.1 "down", h.2.2.2.2 (Json.obj []) (PyErr.keyError "message") rfl⟩

/-- C4 counterexample: the Gemini `generate_context` builds a block
even for a result whose URL is empty, so its block count is not
bounded by the number of results with a non-empty URL. -/
theorem c4_counterexample_gemini_no_url_filter :
    ¬ ((generate_context_entries_gemini (fun _ => Fetch.error "down")
          [⟨"", "T", ""⟩]).length
        ≤ (([⟨"", "T", ""⟩] : List SearchResult).filter
            (fun r => r.href != "")).length) := by
  decide

/-- C4 as amended: the Ollama `generate_context` builds exactly one
block per result with a non-empty URL, hence at most `numResults`
blocks whenever the provider returned at most `numResults` results;
the Gemini variant builds exactly one block per result (no URL
filter), hence also at most `numResults`. -/
theorem c4_amended_block_counts :
    ∀ (rs : List SearchResult) (fo : String → Fetch) (n : Nat), rs.length ≤ n →
      (generate_context_entries fo rs).length
          = (rs.filter (fun r => r.href != "")).length ∧
      (generate_context_entries fo rs).length ≤ n ∧
      (generate_context_entries_gemini fo rs).length = rs.length ∧
      (generate_context_entries_gemini fo rs).length ≤ n := by
  intro rs fo n hn
  have hcount : (generate_context_entries fo rs).length
      = (rs.filter (fun r => r.href != "")).length := by
    clear hn
    induction rs with
    | nil => rfl
    | cons r rest ih =>
        by_cases hh : r.href = ""
        · have hb : (r.href != "") = false := by simp [hh]
          simp [generate_context_entries, List.filter_cons, hh, hb, ih]
        · have hb : (r.href != "") = true := by simp [hh]
          simp [generate_context_entries, List.filter_cons, hh, hb, ih]
  have hg : (generate_context_entries_gemini fo rs).length = rs.length := by
    simp [generate_context_entries_gemini]
  refine ⟨hcount, ?_, hg, by rw [hg]; exact hn⟩
  rw [hcount]
  exact le_trans (List.length_filter_le _ rs) hn

/-- Witness for C4 (amended) at a one-result list with bound 3. -/
theorem c4_amended_block_counts_witness :
    (generate_context_entries (fun _ => Fetch.error "down") [⟨"u", "T", "s"⟩]).length
        = (([⟨"u", "T", "s"⟩] : List SearchResult).filter
            (fun r => r.href != "")).length ∧
    (generate_context_entries (fun _ => Fetch.error "down") [⟨"u", "T", "s"⟩]).length ≤ 3 ∧
    (generate_context_entries_gemini (fun _ => Fetch.error "down")
        [⟨"u", "T", "s"⟩]).length = 1 ∧
    (generate_context_entries_gemini (fun _ => Fetch.error "down")
        [⟨"u", "T", "s"⟩]).length ≤ 3 :=
  c4_amended_block_counts [⟨"u", "T", "s"⟩] (fun _ => Fetch.error "down") 3 (by decide)

/-! ## Ordered-occurrence predicate for context blocks -/

/-- The relation `ChainFrom l ps` holds when the patterns `ps` occur in `l` in
order, each strictly after the end of the previous one. -/
def ChainFrom : List Char → List String → Prop
  | _, [] => True
  | l, p :: ps => ∃ pre rest, l = pre ++ p.data ++ rest ∧ ChainFrom rest ps

/-- The patterns `ps` occur in the string `s` in order. -/
def InOrder (s : String) (ps : List String) : Prop :=
  ChainFrom s.data ps

theorem chainFrom_cons {l : List Char} {p : String} {ps : List String}
    (pre rest : List Char) (h : l = pre ++ p.data ++ rest)
    (hrest : ChainFrom rest ps) : ChainFrom l (p :: ps) :=
  ⟨pre, rest, h, hrest⟩

theorem chainFrom_nil (l : List Char) : ChainFrom l [] :=
  trivial

/-- Every pattern of an ordered occurrence chain is an infix of the
whole character list. -/
theorem chainFrom_occurs {ps : List String} {l : List Char} {p : String}
    (h : ChainFrom l ps) (hp : p ∈ ps) : p.data <:+: l := by
  induction ps generalizing l with
  | nil => cases hp
  | cons q qs ih =>
      obtain ⟨pre, rest, rfl, hrest⟩ := h
      rcases List.mem_cons.mp hp with rfl | hmem
      · exact ⟨pre, rest, rfl⟩
      · exact (ih hrest hmem).trans ⟨pre ++ q.data, [], by simp⟩

/-- An Ollama context block with non-empty content carries the Source,
URL, Summary and Content markers in order. -/
theorem context_entry_ollama_inorder (r : SearchResult) {c : String} (hc : c ≠ "") :
    InOrder (context_entry_ollama r c)
      ["Source: ", "\nURL: ", "\nSummary: ", "Content:\n"] := by
  show ChainFrom (context_entry_ollama r c).data _
  have hdata : (context_entry_ollama r c).data
      = "Source: ".data ++ (r.title.data ++ ("\nURL: ".data ++ (r.href.data
        ++ ("\nSummary: ".data ++ (r.body.data ++ ("\n\n".data ++ ("Content:\n".data
        ++ (c.data ++ ("\n".data ++ (sep50.data ++ "\n".data)))))))))) := by
    simp [context_entry_ollama, hc, String.data_append]
  rw [hdata]
  refine chainFrom_cons [] (r.title.data ++ ("\nURL: ".data ++ (r.href.data
    ++ ("\nSummary: ".data ++ (r.body.data ++ ("\n\n".data ++ ("Content:\n".data
    ++ (c.data ++ ("\n".data ++ (sep50.data ++ "\n".data)))))))))) (by simp) ?_
  refine chainFrom_cons r.title.data (r.href.data
    ++ ("\nSummary: ".data ++ (r.body.data ++ ("\n\n".data ++ ("Content:\n".data
    ++ (c.data ++ ("\n".data ++ (sep50.data ++ "\n".data)))))))) (by simp) ?_
  refine chainFrom_cons r.href.data (r.body.data ++ ("\n\n".data
    ++ ("Content:\n".data ++ (c.data ++ ("\n".data ++ (sep50.data ++ "\n".data))))))
    (by simp) ?_
  refine chainFrom_cons (r.body.data ++ "\n\n".data)
    (c.data ++ ("\n".data ++ (sep50.data ++ "\n".data))) (by simp) ?_
  exact chainFrom_nil _

/-- A Gemini context block with non-empty content carries the Source,
URL and Content markers in order (it has no Summary line). -/
theorem context_entry_gemini_inorder (t u : String) {c : String} (hc : c ≠ "") :
    InOrder (context_entry_gemini t u c) ["Source: ", "\nURL: ", "Content:\n"] := by
  show ChainFrom (context_entry_gemini t u c).data _
  have hdata : (context_entry_gemini t u c).data
      = "Source: ".data ++ (t.data ++ ("\nURL: ".data ++ (u.data ++ ("\n\n".data
        ++ ("Content:\n".data ++ (c.data ++ ("\n".data
        ++ (sep50.data ++ "\n".data)))))))) := by
    simp [context_entry_gemini, hc, String.data_append]
  rw [hdata]
  refine chainFrom_cons [] (t.data ++ ("\nURL: ".data ++ (u.data ++ ("\n\n".data
    ++ ("Content:\n".data ++ (c.data ++ ("\n".data ++ (sep50.data ++ "\n".data))))))))
    (by simp) ?_
  refine chainFrom_cons t.data (u.data ++ ("\n\n".data
    ++ ("Content:\n".data ++ (c.data ++ ("\n".data ++ (sep50.data ++ "\n".data))))))
    (by simp) ?_
  refine chainFrom_cons (u.data ++ "\n\n".data)
    (c.data ++ ("\n".data ++ (sep50.data ++ "\n".data))) (by simp) ?_
  exact chainFrom_nil _

set_option maxRecDepth 20000 in
/-- C5 counterexample: a Gemini-variant context block built by
`generate_context` from a result with non-empty snippet
(`"Paris is the capital"`) and non-empty extracted content
(`"hello"`) contains no Summary marker at all, so it does not contain
Source, URL, Summary, Content in order as claimed. -/
theorem c5_counterexample_gemini_no_summary :
    generate_context_entries_gemini
        (fun _ => Fetch.ok (Html.elem "html" [] [Html.text "hello"]))
        [⟨"u", "T", "Paris is the capital"⟩]
      = [context_entry_gemini "T" "u" "hello"] ∧
    ¬ InOrder (context_entry_gemini "T" "u" "hello")
        ["Source: ", "\nURL: ", "\nSummary: ", "Content:\n"] := by
  constructor
  · decide
  · intro h
    have hinf : "\nSummary: ".data <:+: (context_entry_gemini "T" "u" "hello").data :=
      chainFrom_occurs h (by simp)
    exact absurd hinf (by decide)

/-- C5 as amended: an Ollama block from non-empty content carries
Source, URL, Summary, Content in order; an Ollama block from empty
content is the Source/URL/Summary form with no Content section.  The
Gemini variant carries no Summary line in either branch: its
non-empty-content block has Source, URL, Content in order and its
empty-content block is the Source/URL form.  All four block shapes end
with the separator line. -/
theorem c5_amended_block_shapes :
    ∀ (r : SearchResult) (c : String) (t u : String),
      (c ≠ "" → InOrder (context_entry_ollama r c)
          ["Source: ", "\nURL: ", "\nSummary: ", "Content:\n"]) ∧
      (c = "" → context_entry_ollama r c
          = "Source: " ++ r.title ++ "\nURL: " ++ r.href ++ "\nSummary: " ++ r.body
            ++ "\n" ++ sep50 ++ "\n") ∧
      (∃ pre, context_entry_ollama r c = pre ++ (sep50 ++ "\n")) ∧
      (c ≠ "" → InOrder (context_entry_gemini t u c) ["Source: ", "\nURL: ", "Content:\n"]) ∧
      (c = "" → context_entry_gemini t u c
          = "Source: " ++ t ++ "\nURL: " ++ u ++ "\n" ++ sep50 ++ "\n") ∧
      (∃ pre, context_entry_gemini t u c = pre ++ (sep50 ++ "\n")) := by
  intro r c t u
  refine ⟨fun hc => context_entry_ollama_inorder r hc,
    fun hc => by simp [context_entry_ollama, hc],
    ?_,
    fun hc => context_entry_gemini_inorder t u hc,
    fun hc => by simp [context_entry_gemini, hc],
    ?_⟩
  · by_cases hc : c = ""
    · refine ⟨"Source: " ++ r.title ++ "\nURL: " ++ r.href ++ "\nSummary: " ++ r.body
        ++ "\n", ?_⟩
      apply String.ext
      simp [context_entry_ollama, hc, String.data_append]
    · refine ⟨"Source: " ++ r.title ++ "\nURL: " ++ r.href ++ "\nSummary: " ++ r.body
        ++ "\n\n" ++ "Content:\n" ++ c ++ "\n", ?_⟩
      apply String.ext
      simp [context_entry_ollama, hc, String.data_append]
  · by_cases hc : c = ""
    · refine ⟨"Source: " ++ t ++ "\nURL: " ++ u ++ "\n", ?_⟩
      apply String.ext
      simp [context_entry_gemini, hc, String.data_append]
    · refine ⟨"Source: " ++ t ++ "\nURL: " ++ u ++ "\n\n" ++ "Content:\n" ++ c ++ "\n", ?_⟩
      apply String.ext
      simp [context_entry_gemini, hc, String.data_append]

/-- Witness for C5 (amended) at concrete blocks. -/
theorem c5_amended_block_shapes_witness :
    InOrder (context_entry_ollama ⟨"u", "T", "s"⟩ "body text")
        ["Source: ", "\nURL: ", "\nSummary: ", "Content:\n"] ∧
    context_entry_ollama ⟨"u", "T", "s"⟩ ""
        = "Source: " ++ "T" ++ "\nURL: " ++ "u" ++ "\nSummary: " ++ "s"
          ++ "\n" ++ sep50 ++ "\n" ∧
    InOrder (context_entry_gemini "T" "u" "body text")
        ["Source: ", "\nURL: ", "Content:\n"] ∧
    context_entry_gemini "T" "u" ""
        = "Source: " ++ "T" ++ "\nURL: " ++ "u" ++ "\n" ++ sep50 ++ "\n" :=
  ⟨(c5_amended_block_shapes ⟨"u", "T", "s"⟩ "body text" "T" "u").1 (by decide),
   (c5_amended_block_shapes ⟨"u", "T", "s"⟩ "" "T" "u").2.1 rfl,
   (c5_amended_block_shapes ⟨"u", "T", "s"⟩ "body text" "T" "u").2.2.2.1 (by decide),
   (c5_amended_block_shapes ⟨"u", "T", "s"⟩ "" "T" "u").2.2.2.2.1 rfl⟩

/-- The normalization exactly as the claim words it: split on
newlines, drop empty/whitespace-only lines, rejoin with newline — with
no per-line stripping. -/
def claimNormalize (text : String) : String :=
  pyJoin "\n" ((pySplitNL text).filter (fun l => !(pyStrip l).isEmpty))

/-- The region selection written as the spec words it: a main element,
else an article element, else a div whose class list intersects the
content set, else the whole remaining document. -/
def specSelectRegion (soup : Html) : Html :=
  match findFirst isMainTag soup with
  | some m => m
  | none =>
      match findFirst isArticleTag soup with
      | some a => a
      | none =>
          match findFirst isContentDiv soup with
          | some d => d
          | none => soup

/-- C6 counterexample: the code strips each line during the
line-cleaning step, so the claimed normalization (drop blank lines and
rejoin, with no per-line strip) disagrees with `extract_content` on a
document whose single text run contains an internal newline followed
by indentation. -/
theorem c6_counterexample_line_strip :
    extract_content (Fetch.ok (Html.elem "html" [] [Html.text "a\n  b"]))
      ≠ pyTake 2000 (claimNormalize (getText (specSelectRegion
          (scrubNode (Html.elem "html" [] [Html.text "a\n  b"]))))) := by
  decide

/-- C6 as amended: `extract_content` on a successful fetch equals the
spec-ordered region selection followed by get-text and the
line-cleaning step that also strips each kept line, cut to 2000
characters; and the selection tries main, article, content-div, whole
document in exactly that order. -/
theorem c6_amended_selection_and_normalization :
    ∀ doc : Html,
      extract_content (Fetch.ok doc)
          = pyTake 2000 (cleanLines (getText (specSelectRegion (scrubNode doc)))) ∧
      (∀ m, findFirst isMainTag (scrubNode doc) = some m →
        specSelectRegion (scrubNode doc) = m) ∧
      (findFirst isMainTag (scrubNode doc) = none →
        ∀ a, findFirst isArticleTag (scrubNode doc) = some a →
          specSelectRegion (scrubNode doc) = a) ∧
      (findFirst isMainTag (scrubNode doc) = none →
        findFirst isArticleTag (scrubNode doc) = none →
          ∀ d, findFirst isContentDiv (scrubNode doc) = some d →
            specSelectRegion (scrubNode doc) = d) ∧
      (findFirst isMainTag (scrubNode doc) = none →
        findFirst isArticleTag (scrubNode doc) = none →
          findFirst isContentDiv (scrubNode doc) = none →
            specSelectRegion (scrubNode doc) = scrubNode doc) := by
  intro doc
  have hsel : (match selectContent (scrubNode doc) with
      | some el => getText el
      | none => getText (scrubNode doc)) = getText (specSelectRegion (scrubNode doc)) := by
    unfold selectContent specSelectRegion
    cases h1 : findFirst isMainTag (scrubNode doc) with
    | some m => simp
    | none =>
        cases h2 : findFirst isArticleTag (scrubNode doc) with
        | some a => simp
        | none =>
            cases h3 : findFirst isContentDiv (scrubNode doc) with
            | some d => simp
            | none => simp
  refine ⟨?_, ?_, ?_, ?_, ?_⟩
  · show pyTake 2000 (rawCleanedText doc) = _
    unfold rawCleanedText
    rw [hsel]
  · intro m hm
    unfold specSelectRegion
    rw [hm]
  · intro h1 a ha
    unfold specSelectRegion
    rw [h1, ha]
  · intro h1 h2 d hd
    unfold specSelectRegion
    rw [h1, h2, hd]
  · intro h1 h2 h3
    unfold specSelectRegion
    rw [h1, h2, h3]

/-- Witness for C6 (amended): a document carrying both a main and an
article element selects the main one, and one with neither selects the
whole scrubbed document. -/
theorem c6_amended_selection_and_normalization_witness :
    specSelectRegion (scrubNode (Html.elem "html" []
        [Html.elem "main" [] [Html.text "hi"], Html.elem "article" [] [Html.text "art"]]))
      = Html.elem "main" [] [Html.text "hi"] ∧
    extract_content (Fetch.ok (Html.elem "html" []
        [Html.elem "main" [] [Html.text "hi"], Html.elem "article" [] [Html.text "art"]]))
      = pyTake 2000 (cleanLines (getText (specSelectRegion (scrubNode (Html.elem "html" []
          [Html.elem "main" [] [Html.text "hi"], Html.elem "article" [] [Html.text "art"]]))))) ∧
    specSelectRegion (scrubNode (Html.elem "html" [] [Html.text "plain"]))
      = scrubNode (Html.elem "html" [] [Html.text "plain"]) :=
  ⟨(c6_amended_selection_and_normalization (Html.elem "html" []
      [Html.elem "main" [] [Html.text "hi"], Html.elem "article" [] [Html.text "art"]])).2.1
      (Html.elem "main" [] [Html.text "hi"]) rfl,
   (c6_amended_selection_and_normalization (Html.elem "html" []
      [Html.elem "main" [] [Html.text "hi"], Html.elem "article" [] [Html.text "art"]])).1,
   (c6_amended_selection_and_normalization (Html.elem "html" [] [Html.text "plain"])).2.2.2.2
      rfl rfl rfl⟩

/-- C9 counterexample: for a URL with surrounding whitespace and a
successfully fetched document with no title element, `_get_page_title`
returns the stripped URL, not the URL itself as claimed. -/
theorem c9_counterexample_stripped_url :
    get_page_title " u " (Fetch.ok (Html.elem "html" [] [])) ≠ " u " := by
  decide

/-- C9 as amended: `_get_page_title` returns the stripped title text
when the document has a title element with a single text run; on fetch
or parse failure, or when the title element has no single text run
(so `.strip()` on None raises and is caught), it returns the URL
verbatim; when the fetch succeeds but the document has no title
element, it returns the URL stripped of surrounding whitespace. -/
theorem c9_amended_title_fallback :
    ∀ url : String,
      (∀ m, get_page_title url (Fetch.error m) = url) ∧
      (∀ doc, findFirst isTitleTag doc = none →
        get_page_title url (Fetch.ok doc) = pyStrip url) ∧
      (∀ doc ttl s, findFirst isTitleTag doc = some ttl → dotString ttl = some s →
        get_page_title url (Fetch.ok doc) = pyStrip s) ∧
      (∀ doc ttl, findFirst isTitleTag doc = some ttl → dotString ttl = none →
        get_page_title url (Fetch.ok doc) = url) := by
  intro url
  refine ⟨fun m => rfl, fun doc h => ?_, fun doc ttl s h hs => ?_, fun doc ttl h hs => ?_⟩
  · simp [get_page_title, h]
  · simp [get_page_title, h, hs]
  · simp [get_page_title, h, hs]

/-- Witness for C9 (amended) at concrete documents. -/
theorem c9_amended_title_fallback_witness :
    get_page_title " u " (Fetch.error "timeout") = " u " ∧
    get_page_title " u " (Fetch.ok (Html.elem "html" [] [])) = pyStrip " u " ∧
    get_page_title " u " (Fetch.ok (Html.elem "html" []
        [Html.elem "title" [] [Html.text "  T  "]])) = pyStrip "  T  " ∧
    get_page_title " u " (Fetch.ok (Html.elem "html" []
        [Html.elem "title" [] [Html.text "x", Html.text "y"]])) = " u " :=
  ⟨(c9_amended_title_fallback " u ").1 "timeout",
   (c9_amended_title_fallback " u ").2.1 (Html.elem "html" [] []) rfl,
   (c9_amended_title_fallback " u ").2.2.1 (Html.elem "html" []
      [Html.elem "title" [] [Html.text "  T  "]])
      (Html.elem "title" [] [Html.text "  T  "]) "  T  " rfl rfl,
   (c9_amended_title_fallback " u ").2.2.2 (Html.elem "html" []
      [Html.elem "title" [] [Html.text "x", Html.text "y"]])
      (Html.elem "title" [] [Html.text "x", Html.text "y"]) rfl rfl⟩

/-- Every Ollama context block contains the non-whitespace character
of its leading Source marker. -/
theorem mem_context_entry_ollama (r : SearchResult) (c : String) :
    'S' ∈ (context_entry_ollama r c).data := by
  have hs : 'S' ∈ "Source: ".data := by decide
  unfold context_entry_ollama
  split <;> simp [String.data_append, List.mem_append, hs]

/-- Every Gemini context block contains the non-whitespace character
of its leading Source marker. -/
theorem mem_context_entry_gemini (t u c : String) :
    'S' ∈ (context_entry_gemini t u c).data := by
  have hs : 'S' ∈ "Source: ".data := by decide
  unfold context_entry_gemini
  split <;> simp [String.data_append, List.mem_append, hs]

/-- A result list with a non-empty URL yields an Ollama entry list
containing a block that contains `'S'`. -/
theorem exists_entry_ollama {rs : List SearchResult} (fo : String → Fetch)
    (h : ∃ r ∈ rs, r.href ≠ "") :
    ∃ e ∈ generate_context_entries fo rs, 'S' ∈ e.data := by
  induction rs with
  | nil => obtain ⟨r, hr, _⟩ := h; cases hr
  | cons r rest ih =>
      by_cases hh : r.href = ""
      · have hrest : ∃ r' ∈ rest, r'.href ≠ "" := by
          obtain ⟨r', hr', hne⟩ := h
          rcases List.mem_cons.mp hr' with rfl | hmem
          · exact absurd hh hne
          · exact ⟨r', hmem, hne⟩
        obtain ⟨e, he, hmem⟩ := ih hrest
        refine ⟨e, ?_, hmem⟩
        simp [generate_context_entries, hh]
        exact he
      · refine ⟨context_entry_ollama r (extract_content (fo r.href)), ?_,
          mem_context_entry_ollama r _⟩
        simp [generate_context_entries, hh]

/-- With a context that does not strip to empty, `query_ollama` always
performs exactly one backend call. -/
theorem query_ollama_calls {ctx : String} (p : String) (bk : ChatOutcome)
    (h : pyStrip ctx ≠ "") : (query_ollama p ctx bk).2 = 1 := by
  unfold query_ollama
  rw [if_neg h]
  cases bk with
  | exn e => rfl
  | ok resp =>
      cases hx : ollamaExtract resp with
      | ok v => simp [hx]
      | error err => simp [hx]

/-- With a context that does not strip to empty, `query_gemini` always
performs exactly one backend call. -/
theorem query_gemini_calls {ctx : String} (p : String) (g : HttpOutcome)
    (h : pyStrip ctx ≠ "") : (query_gemini p ctx g).2 = 1 := by
  unfold query_gemini
  rw [if_neg h]
  cases g with
  | requestError e => rfl
  | ok body =>
      cases hx : geminiExtract body with
      | ok v => simp [hx]
      | error err => cases err <;> simp [hx]

/-- C10: a search-result list containing a record with a non-empty URL
yields a context document that is not empty or whitespace-only, so
answer generation on it does not take the no-context advisory
short-circuit (it performs its one backend call).  Both variants. -/
theorem c10_nonempty_context_no_advisory :
    (∀ (rs : List SearchResult) (fo : String → Fetch) (p : String) (bk : ChatOutcome),
      (∃ r ∈ rs, r.href ≠ "") →
      pyStrip (generate_context (SearchOutcome.ok rs) fo) ≠ "" ∧
      (query_ollama p (generate_context (SearchOutcome.ok rs) fo) bk).2 = 1) ∧
    (∀ (urls : List String) (tf fo : String → Fetch) (p : String) (g : HttpOutcome),
      urls ≠ [] →
      pyStrip (generate_context_gemini (GoogleOutcome.ok urls) tf fo) ≠ "" ∧
      (query_gemini p (generate_context_gemini (GoogleOutcome.ok urls) tf fo) g).2 = 1) := by
  constructor
  · intro rs fo p bk h
    obtain ⟨e, he, hmem⟩ := exists_entry_ollama fo h
    have hS : 'S' ∈ (generate_context (SearchOutcome.ok rs) fo).data :=
      mem_pyJoin he hmem
    have hne : pyStrip (generate_context (SearchOutcome.ok rs) fo) ≠ "" :=
      pyStrip_ne_empty hS (by decide)
    exact ⟨hne, query_ollama_calls p bk hne⟩
  · intro urls tf fo p g h
    cases urls with
    | nil => exact absurd rfl h
    | cons u us =>
        have he : context_entry_gemini (get_page_title u (tf u)) u
              (extract_content (fo u))
            ∈ generate_context_entries_gemini fo
              (search_web_gemini (GoogleOutcome.ok (u :: us)) tf) := by
          simp [search_web_gemini, generate_context_entries_gemini]
        have hS : 'S' ∈ (generate_context_gemini (GoogleOutcome.ok (u :: us)) tf fo).data :=
          mem_pyJoin he (mem_context_entry_gemini _ _ _)
        have hne : pyStrip (generate_context_gemini (GoogleOutcome.ok (u :: us)) tf fo) ≠ "" :=
          pyStrip_ne_empty hS (by decide)
        exact ⟨hne, query_gemini_calls p g hne⟩

/-- Witness for C10 at a single concrete result. -/
theorem c10_nonempty_context_no_advisory_witness :
    (pyStrip (generate_context (SearchOutcome.ok [⟨"u", "T", "s"⟩])
        (fun _ => Fetch.error "down")) ≠ "" ∧
      (query_ollama "Q" (generate_context (SearchOutcome.ok [⟨"u", "T", "s"⟩])
          (fun _ => Fetch.error "down")) (ChatOutcome.exn "x")).2 = 1) ∧
    (pyStrip (generate_context_gemini (GoogleOutcome.ok ["u"])
        (fun _ => Fetch.error "down") (fun _ => Fetch.error "down")) ≠ "" ∧
      (query_gemini "Q" (generate_context_gemini (GoogleOutcome.ok ["u"])
          (fun _ => Fetch.error "down") (fun _ => Fetch.error "down"))
          (HttpOutcome.requestError "x")).2 = 1) :=
  ⟨c10_nonempty_context_no_advisory.1 [⟨"u", "T", "s"⟩] (fun _ => Fetch.error "down")
      "Q" (ChatOutcome.exn "x") ⟨⟨"u", "T", "s"⟩, by simp, by decide⟩,
   c10_nonempty_context_no_advisory.2 ["u"] (fun _ => Fetch.error "down")
      (fun _ => Fetch.error "down") "Q" (HttpOutcome.requestError "x") (by simp)⟩
